import Mathlib

/-!
Shallow embedding of the document ingestion and extraction pipeline of the
`ai-pdf-genie-aws-backend` repository (TypeScript sources under `src/`):
the upload handler (`src/lambdas/upload-handler.ts`, the richest revision),
the Q&A processing handler, and their helper functions.

Modelling conventions:
* Node `Buffer`s are `List Nat` of byte values.
* JavaScript strings are Lean `String`s; the string operations used by the
  source (`toLowerCase`, `trim`, `includes`, `startsWith`, `slice`, `join`)
  are re-implemented structurally on `String.data` so that they evaluate in
  the kernel.  ASCII case folding and the common whitespace characters are
  modelled; the source only applies these operations to ASCII message text.
* A thrown JavaScript `Error` is `JsError` (its `name` and `message`); a
  function that can throw returns `Except JsError α`.
* The AWS collaborators (S3, Textract, Bedrock) are parameters: a function
  from the request the code sends to the collaborator's outcome.  Every
  function additionally returns the list of collaborator calls it issued,
  in order, so that claims about which external calls happen are statable.
-/

/-- Node `Buffer`: a sequence of byte values (each `< 256` in real buffers;
the bound is irrelevant to the claims and not imposed). -/
abbrev Buffer := List Nat

/-- A thrown JavaScript `Error`: its `name` and `message` properties.
Errors constructed by `new Error(msg)` have name `"Error"`. -/
structure JsError where
  name : String
  message : String
  deriving Repr, DecidableEq

/-- JavaScript truthiness of an optional string value: `undefined` and the
empty string are falsy. -/
def jsTruthy : Option String → Bool
  | none => false
  | some s => !(s == "")

/-- ASCII lower-casing of a character, mirroring `Char.toLower` and the
effect of JavaScript `toLowerCase` on ASCII text. -/
def jsCharLower (c : Char) : Char :=
  if 65 ≤ c.toNat ∧ c.toNat ≤ 90 then Char.ofNat (c.toNat + 32) else c

/-- JavaScript `s.toLowerCase()` (ASCII fragment, structural). -/
def jsToLowerCase (s : String) : String :=
  String.mk (s.data.map jsCharLower)

/-- The whitespace characters trimmed by `trim()` (the ones occurring in the
source's message text). -/
def jsIsWs (c : Char) : Bool :=
  c == ' ' || c == '\t' || c == '\n' || c == '\r'

/-- JavaScript `s.trim()`: strip leading and trailing whitespace. -/
def jsTrim (s : String) : String :=
  String.mk (((s.data.dropWhile jsIsWs).reverse.dropWhile jsIsWs).reverse)

/-- Does `pat` occur as a contiguous run inside `l`?  (JavaScript
`String.prototype.includes`, on character lists.) -/
def charsHasInfix (pat : List Char) : List Char → Bool
  | [] => pat.isEmpty
  | c :: cs => pat.isPrefixOf (c :: cs) || charsHasInfix pat cs

/-- JavaScript `s.includes(pat)`. -/
def jsIncludes (s pat : String) : Bool :=
  charsHasInfix pat.data s.data

/-- JavaScript `s.startsWith(pat)`. -/
def jsStartsWith (s pat : String) : Bool :=
  pat.data.isPrefixOf s.data

/-- JavaScript `arr.join(sep)` on strings. -/
def jsJoin (sep : String) : List String → String
  | [] => ""
  | [x] => x
  | x :: y :: xs => x ++ sep ++ jsJoin sep (y :: xs)

/-- JavaScript `s.length` (code-point count in this model). -/
def jsLength (s : String) : Nat := s.data.length

/-- JavaScript `s.slice(0, n)`. -/
def jsSliceTo (s : String) (n : Nat) : String := String.mk (s.data.take n)

/-! ## UTF-8

`Buffer.prototype.toString('utf-8')` decodes the byte sequence as UTF-8.
The decoder below accepts exactly the well-formed multi-byte sequences and
answers `none` on ill-formed input (where Node would substitute U+FFFD;
no claim depends on the decoding of ill-formed input). -/

/-- Encoding of one Unicode scalar value as UTF-8 bytes. -/
def utf8EncodeCharNat (n : Nat) : List Nat :=
  if n < 0x80 then [n]
  else if n < 0x800 then [0xC0 + n / 64, 0x80 + n % 64]
  else if n < 0x10000 then [0xE0 + n / 4096, 0x80 + n / 64 % 64, 0x80 + n % 64]
  else [0xF0 + n / 262144, 0x80 + n / 4096 % 64, 0x80 + n / 64 % 64, 0x80 + n % 64]

/-- UTF-8 encoding of a string. -/
def utf8Encode (s : String) : Buffer :=
  (s.data.map (fun c => utf8EncodeCharNat c.toNat)).flatten

/-- Is `b` a UTF-8 continuation byte? -/
def isCont (b : Nat) : Bool := 0x80 ≤ b && b < 0xC0

/-- Byte-at-a-time UTF-8 decoding automaton.  `need` is the number of
continuation bytes still expected for the current character, `acc` the
scalar value accumulated so far. -/
def utf8DecodeAux : List Nat → Nat → Nat → Option (List Char)
  | [], need, _ => if need == 0 then some [] else none
  | b :: bs, 0, _ =>
    if b < 0x80 then (utf8DecodeAux bs 0 0).map (fun cs => Char.ofNat b :: cs)
    else if b < 0xC0 then none
    else if b < 0xE0 then utf8DecodeAux bs 1 (b - 0xC0)
    else if b < 0xF0 then utf8DecodeAux bs 2 (b - 0xE0)
    else utf8DecodeAux bs 3 (b - 0xF0)
  | b :: bs, 1, acc =>
    if isCont b then
      (utf8DecodeAux bs 0 0).map (fun cs => Char.ofNat (acc * 64 + (b - 0x80)) :: cs)
    else none
  | b :: bs, need + 2, acc =>
    if isCont b then utf8DecodeAux bs (need + 1) (acc * 64 + (b - 0x80)) else none

/-- UTF-8 decoding of a byte list into characters (`none` on ill-formed
input). -/
def utf8DecodeList (l : List Nat) : Option (List Char) :=
  utf8DecodeAux l 0 0

/-- `buf.toString('utf-8')` on well-formed input (ill-formed input, where
Node would emit replacement characters, decodes to `""` in the model). -/
def bufferToStringUtf8 (b : Buffer) : String :=
  match utf8DecodeList b with
  | some cs => String.mk cs
  | none => ""

/-! ## Textract collaborator interface

`src/lambdas/upload-handler.ts` sends a `DetectDocumentTextCommand` either
with inline `Bytes` or with an `S3Object` reference, and receives a list of
typed blocks or a thrown service error. -/

/-- The `Document` argument of a `DetectDocumentTextCommand`: inline bytes
or an S3 object reference (bucket and key). -/
inductive TextractCall where
  | inlineBytes (buf : Buffer)
  | s3Ref (bucket : String) (key : String)
  deriving Repr, DecidableEq

/-- One element of `textractResult.Blocks`: its `BlockType` and optional
`Text`. -/
structure Block where
  blockType : String
  text : Option String
  deriving Repr, DecidableEq

/-- Behaviour of the Textract collaborator: the outcome of `textract.send`
for each possible command. -/
abbrev TextractSvc := TextractCall → Except JsError (List Block)

/-- `block.Text` read with JavaScript defaulting (`undefined` behaves as
falsy; reading it after a truthiness check yields the string). -/
def blockTextValue (b : Block) : String := b.text.getD ""

/-- The filter predicate `block.BlockType === 'LINE' && block.Text` from
`extractText` (JavaScript truthiness: `undefined` and `""` are falsy). -/
def lineBlockFilter (b : Block) : Bool :=
  b.blockType == "LINE" && !(blockTextValue b == "")

/-- `textractResult.Blocks?.filter(...).map(block => block.Text).join(' ') || ''`:
the candidate extracted text assembled from the service's blocks. -/
def extractBlocksText (blocks : List Block) : String :=
  jsJoin " " ((blocks.filter lineBlockFilter).map blockTextValue)

/-! ## extractText (src/lambdas/upload-handler.ts) -/

/-- The image extensions accepted alongside `.pdf` by `extractText`. -/
def imageExtensions : List String := [".jpg", ".jpeg", ".png", ".tif", ".tiff"]

/-- Message thrown when the PDF signature pre-check fails. -/
def invalidPdfMsg : String :=
  "Invalid PDF file: File does not have a valid PDF signature. Please ensure the file is a valid PDF."

/-- Message thrown when no text could be extracted. -/
def noTextMsg : String :=
  "No text could be extracted from the document. The document might be empty, image-based, or password-protected."

/-- Message thrown when Textract reports `UnsupportedDocumentException`. -/
def unsupportedDocMsg : String :=
  "PDF format not supported by Textract. Please ensure the PDF is not encrypted, password-protected, or corrupted. Try re-saving the PDF or using a different file."

/-- Message thrown when Textract reports `InvalidParameterException`. -/
def invalidParamMsg : String :=
  "Invalid document format. The file might be corrupted or not a valid PDF."

/-- `fileBuffer.slice(0, 5).toString('utf-8').startsWith('%PDF-')`: the PDF
signature pre-check. -/
def pdfHeaderOk (fileBuffer : Buffer) : Bool :=
  jsStartsWith (bufferToStringUtf8 (fileBuffer.take 5)) "%PDF-"

/-- The `catch (error)` classification inside `extractText`: named Textract
errors are mapped to actionable messages, custom errors (non-service names)
are re-thrown unchanged, anything else is wrapped. -/
def classifyTextractError (e : JsError) : JsError :=
  if e.name == "UnsupportedDocumentException" then ⟨"Error", unsupportedDocMsg⟩
  else if e.name == "InvalidParameterException" then ⟨"Error", invalidParamMsg⟩
  else if !(e.message == "") && !(jsIncludes e.name "Exception") then e
  else ⟨"Error", "Text extraction failed: "
    ++ (if e.message == "" then "Unknown error" else e.message)⟩

/-- The `Document` argument chosen inside `extractText`'s `try` block:
`if (ext === '.pdf' && s3Bucket && s3Key)` use the S3 location, otherwise
inline bytes (JavaScript truthiness: an absent or empty bucket/key falls
back to inline bytes). -/
def pickCall (fileBuffer : Buffer) (ext : String) (s3Bucket s3Key : Option String) :
    TextractCall :=
  if ext == ".pdf" && jsTruthy s3Bucket && jsTruthy s3Key then
    TextractCall.s3Ref (s3Bucket.getD "") (s3Key.getD "")
  else
    TextractCall.inlineBytes fileBuffer

/-- The body of `extractText`'s `try`/`catch` once the call form is chosen:
send the command, assemble the candidate text, fail with `noTextMsg` when
it is empty or whitespace-only, and classify a thrown service error. -/
def serviceStage (svc : TextractSvc) (call : TextractCall) :
    Except JsError String × List TextractCall :=
  match svc call with
  | Except.ok blocks =>
    let extractedText := extractBlocksText blocks
    if extractedText == "" || jsTrim extractedText == "" then
      (Except.error ⟨"Error", noTextMsg⟩, [call])
    else
      (Except.ok extractedText, [call])
  | Except.error e => (Except.error (classifyTextractError e), [call])

/-- `extractText(fileBuffer, ext, s3Bucket?, s3Key?)` from
`src/lambdas/upload-handler.ts`, with the Textract collaborator `svc` as a
parameter.  Returns the thrown error or returned string, paired with the
list of Textract calls issued (in order).  The `%%EOF` tail inspection of
the source only logs a warning and has no behavioural effect. -/
def extractText (fileBuffer : Buffer) (ext : String)
    (s3Bucket s3Key : Option String) (svc : TextractSvc) :
    Except JsError String × List TextractCall :=
  if ext == ".txt" then
    (Except.ok (bufferToStringUtf8 fileBuffer), [])
  else if ext == ".pdf" || imageExtensions.contains ext then
    if ext == ".pdf" && !pdfHeaderOk fileBuffer then
      (Except.error ⟨"Error", invalidPdfMsg⟩, [])
    else
      serviceStage svc (pickCall fileBuffer ext s3Bucket s3Key)
  else
    (Except.ok "", [])

/-! ## generateSummary and the Bedrock collaborator -/

/-- Behaviour of the Bedrock collaborator: maps the `inputText` of the
`InvokeModelCommand` body to the model's `outputText` (or a thrown error). -/
abbrev BedrockSvc := String → Except JsError String

/-- `maxTextLength = 3000` (both handlers use the same constant). -/
def maxTextLength : Nat := 3000

/-- `text.length > maxTextLength ? text.slice(0, maxTextLength) + '...' : text`
from `generateSummary` in `src/lambdas/upload-handler.ts`. -/
def truncatedText (text : String) : String :=
  if jsLength text > maxTextLength then jsSliceTo text maxTextLength ++ "..." else text

/-- The `inputText` of the summarization request body. -/
def summaryInputText (text : String) : String :=
  "Provide a concise summary of the following document:\n\n"
    ++ truncatedText text ++ "\n\nSummary:"

/-- External calls issued by the upload handler, in order. -/
inductive ExternalCall where
  | s3Put (bucket key : String) (body : Buffer) (contentType : String)
  | textract (c : TextractCall)
  | bedrock (inputText : String)
  deriving Repr, DecidableEq

/-- `generateSummary(text)`: builds the prompt, invokes Bedrock, and returns
`responseBody.results[0].outputText.trim()`. -/
def generateSummary (text : String) (bed : BedrockSvc) :
    Except JsError String × List ExternalCall :=
  match bed (summaryInputText text) with
  | Except.ok out => (Except.ok (jsTrim out), [ExternalCall.bedrock (summaryInputText text)])
  | Except.error e => (Except.error e, [ExternalCall.bedrock (summaryInputText text)])

/-! ## The upload handler (src/lambdas/upload-handler.ts) -/

/-- `allowedExtensions` from the upload handler. -/
def allowedExtensions : List String :=
  [".pdf", ".txt", ".jpg", ".jpeg", ".png", ".tif", ".tiff"]

/-- `fileName.slice(fileName.lastIndexOf('.')).toLowerCase()`.  When the
name has no dot, `lastIndexOf` is `-1` and `slice(-1)` yields the final
character (the empty string for an empty name). -/
def extOf (fileName : String) : String :=
  let cs := fileName.data
  let start :=
    match cs.reverse.findIdx? (fun c => c == '.') with
    | some j => cs.length - 1 - j
    | none => cs.length - 1
  jsToLowerCase (String.mk (cs.drop start))

/-- The `contentTypeMap` lookup with its `'application/octet-stream'`
default. -/
def contentTypeFor (ext : String) : String :=
  if ext == ".pdf" then "application/pdf"
  else if ext == ".txt" then "text/plain"
  else if ext == ".jpg" then "image/jpeg"
  else if ext == ".jpeg" then "image/jpeg"
  else if ext == ".png" then "image/png"
  else if ext == ".tif" then "image/tiff"
  else if ext == ".tiff" then "image/tiff"
  else "application/octet-stream"

/-- The HTTP response produced by the upload handler (the CORS headers are
constant and omitted; `none` fields are absent from the JSON). -/
structure UploadResponse where
  statusCode : Nat
  error : Option String
  details : Option String
  extractedText : Option String
  summary : Option String
  deriving Repr, DecidableEq

/-- A 400 response with only an `error` field. -/
def clientError (msg : String) : UploadResponse :=
  ⟨400, some msg, none, none, none⟩

/-- The keyword list of the handler's `catch`: a message containing one of
these (lower-cased) is a client error (status 400). -/
def clientErrorKeywords : List String :=
  ["invalid", "not supported", "too large", "empty",
   "password-protected", "encrypted", "corrupted"]

/-- The `catch (err)` block of the upload handler: keyword scan over the
lower-cased message decides between 400 (message surfaced) and 500
(generic message); `details` always carries the raw message. -/
def catchResponse (e : JsError) : UploadResponse :=
  let msg := jsToLowerCase e.message
  if clientErrorKeywords.any (fun k => jsIncludes msg k) then
    ⟨400, some e.message, some e.message, none, none⟩
  else
    ⟨500, some "Server processing error", some e.message, none, none⟩

/-- The upload `handler` (post JSON parsing and base64 decoding, which are
transport glue): validates the extension and buffer, uploads to S3, extracts
text, summarizes, and classifies any thrown error.  `documentId` stands for
the generated `crypto.randomUUID()`; the storage collaborator's outcome is
`s3Res`.  Returns the response and all external calls issued, in order. -/
def uploadKey (documentId fileName : String) : String :=
  documentId ++ "-" ++ fileName

/-- The `PutObjectCommand` issued by the handler (bucket, key, body and
content type). -/
def s3PutCall (bucketName documentId fileName : String) (fileBuffer : Buffer) :
    ExternalCall :=
  ExternalCall.s3Put bucketName (uploadKey documentId fileName) fileBuffer
    (contentTypeFor (extOf fileName))

def uploadHandler (bucketName documentId fileName : String) (fileBuffer : Buffer)
    (s3Res : Except JsError Unit) (svc : TextractSvc) (bed : BedrockSvc) :
    UploadResponse × List ExternalCall :=
  if !(allowedExtensions.contains (extOf fileName)) then
    (clientError "Unsupported file type", [])
  else if fileBuffer.length == 0 then
    (clientError "Empty or invalid file received", [])
  else
    match s3Res with
    | Except.error e =>
      (catchResponse e, [s3PutCall bucketName documentId fileName fileBuffer])
    | Except.ok _ =>
      match extractText fileBuffer (extOf fileName) (some bucketName)
          (some (uploadKey documentId fileName)) svc with
      | (Except.error e, tcalls) =>
        (catchResponse e,
          s3PutCall bucketName documentId fileName fileBuffer
            :: tcalls.map ExternalCall.textract)
      | (Except.ok extractedText, tcalls) =>
        if extractedText == "" then
          (clientError "Could not extract text from document",
            s3PutCall bucketName documentId fileName fileBuffer
              :: tcalls.map ExternalCall.textract)
        else
          match generateSummary extractedText bed with
          | (Except.error e, bcalls) =>
            (catchResponse e,
              s3PutCall bucketName documentId fileName fileBuffer
                :: tcalls.map ExternalCall.textract ++ bcalls)
          | (Except.ok summary, bcalls) =>
            (⟨200, none, none, some extractedText, some summary⟩,
              s3PutCall bucketName documentId fileName fileBuffer
                :: tcalls.map ExternalCall.textract ++ bcalls)

/-! ## The Q&A processing lambda -/

/-- `extractedText.length > maxTextLength ? extractedText.slice(0, maxTextLength) + '...'
: extractedText` from `answerQuestion` in the processing lambda (an
independent copy of the same truncation). -/
def qaTruncatedText (extractedText : String) : String :=
  if jsLength extractedText > maxTextLength then
    jsSliceTo extractedText maxTextLength ++ "..."
  else extractedText

/-- The `inputText` (`userPrompt`) of the Q&A request body. -/
def qaInputText (extractedText question : String) : String :=
  "Based on this document content:\n\n" ++ qaTruncatedText extractedText
    ++ "\n\nQuestion: " ++ question ++ "\n\nAnswer:"

/-- `answerQuestion(extractedText, question)`: builds the prompt, invokes
Bedrock, trims the output; a thrown Bedrock error is wrapped into
`AI processing failed: ...`. -/
def answerQuestion (extractedText question : String) (bed : BedrockSvc) :
    Except JsError String × List ExternalCall :=
  match bed (qaInputText extractedText question) with
  | Except.ok out =>
    (Except.ok (jsTrim out), [ExternalCall.bedrock (qaInputText extractedText question)])
  | Except.error e =>
    (Except.error ⟨"Error", "AI processing failed: "
        ++ (if e.message == "" then "Unknown error" else e.message)⟩,
      [ExternalCall.bedrock (qaInputText extractedText question)])

/-- The HTTP response of the Q&A handler. -/
structure QaResponse where
  statusCode : Nat
  error : Option String
  details : Option String
  question : Option String
  answer : Option String
  deriving Repr, DecidableEq

/-- The Q&A `handler` (post JSON parsing; the OPTIONS pre-flight branch is
transport glue).  The two body fields may each be absent (`none`); the
validation `if (!extractedText || !question)` rejects absent and empty
fields alike with a 400 and no downstream call. -/
def qaHandler (extractedText question : Option String) (bed : BedrockSvc) :
    QaResponse × List ExternalCall :=
  if !(jsTruthy extractedText) || !(jsTruthy question) then
    (⟨400, some "Missing required fields: extractedText and question",
        none, none, none⟩, [])
  else
    match answerQuestion (extractedText.getD "") (question.getD "") bed with
    | (Except.ok answer, calls) =>
      (⟨200, none, none, some (question.getD ""), some answer⟩, calls)
    | (Except.error e, calls) =>
      (⟨500, some "Q&A processing failed", some e.message, none, none⟩, calls)



/-! ## Concrete data used in the claim analyses -/

/-- Is an external call a Textract (extraction-service) call? -/
def isTextractCall : ExternalCall → Bool
  | ExternalCall.textract _ => true
  | _ => false

/-- A syntactically valid inline PDF buffer of exactly 10 MiB + 1 bytes:
the `%PDF-` signature followed by padding spaces. -/
def oversizedPdfBuffer : Buffer :=
  [37, 80, 68, 70, 45] ++ List.replicate 10485756 32

/-- A 3001-character text, one character beyond the truncation ceiling. -/
def longText : String := String.mk (List.replicate 3001 'a')

/-- The block list of the `scan.png` scenario:
`[{LINE,"Invoice"},{WORD,"123"},{LINE,"Total: 42"}]`. -/
def demoBlocks : List Block :=
  [⟨"LINE", some "Invoice"⟩, ⟨"WORD", some "123"⟩, ⟨"LINE", some "Total: 42"⟩]

/-! ## Properties of the UTF-8 codec -/

theorem isCont_true_of (b : Nat) (h1 : 0x80 ≤ b) (h2 : b < 0xC0) : isCont b = true := by
  simp only [isCont, Bool.and_eq_true, decide_eq_true_eq]
  omega

theorem utf8DecodeList_encodeChar (c : Char) (bs : List Nat) :
    utf8DecodeList (utf8EncodeCharNat c.toNat ++ bs)
      = (utf8DecodeList bs).map (fun cs => c :: cs) := by
  have hlt : c.toNat < 0x110000 := by
    rcases c.valid with h | ⟨_, h⟩
    · exact Nat.lt_trans h (by decide)
    · exact h
  unfold utf8DecodeList
  by_cases h1 : c.toNat < 0x80
  · rw [utf8EncodeCharNat, if_pos h1, List.cons_append, List.nil_append,
      utf8DecodeAux, if_pos h1, Char.ofNat_toNat]
  · by_cases h2 : c.toNat < 0x800
    · rw [utf8EncodeCharNat, if_neg h1, if_pos h2, List.cons_append, List.cons_append,
        List.nil_append, utf8DecodeAux, if_neg (by omega), if_neg (by omega),
        if_pos (by omega), utf8DecodeAux, if_pos (isCont_true_of _ (by omega) (by omega))]
      have he : (0xC0 + c.toNat / 64 - 0xC0) * 64 + (0x80 + c.toNat % 64 - 0x80)
          = c.toNat := by omega
      rw [he, Char.ofNat_toNat]
    · by_cases h3 : c.toNat < 0x10000
      · rw [utf8EncodeCharNat, if_neg h1, if_neg h2, if_pos h3, List.cons_append,
          List.cons_append, List.cons_append, List.nil_append, utf8DecodeAux,
          if_neg (by omega), if_neg (by omega), if_neg (by omega), if_pos (by omega),
          utf8DecodeAux, if_pos (isCont_true_of _ (by omega) (by omega)),
          utf8DecodeAux, if_pos (isCont_true_of _ (by omega) (by omega))]
        have he : ((0xE0 + c.toNat / 4096 - 0xE0) * 64 + (0x80 + c.toNat / 64 % 64 - 0x80)) * 64
            + (0x80 + c.toNat % 64 - 0x80) = c.toNat := by omega
        rw [he, Char.ofNat_toNat]
      · rw [utf8EncodeCharNat, if_neg h1, if_neg h2, if_neg h3, List.cons_append,
          List.cons_append, List.cons_append, List.cons_append, List.nil_append,
          utf8DecodeAux, if_neg (by omega), if_neg (by omega), if_neg (by omega),
          if_neg (by omega), utf8DecodeAux, if_pos (isCont_true_of _ (by omega) (by omega)),
          utf8DecodeAux, if_pos (isCont_true_of _ (by omega) (by omega)),
          utf8DecodeAux, if_pos (isCont_true_of _ (by omega) (by omega))]
        have he : (((0xF0 + c.toNat / 262144 - 0xF0) * 64 + (0x80 + c.toNat / 4096 % 64 - 0x80))
              * 64 + (0x80 + c.toNat / 64 % 64 - 0x80)) * 64 + (0x80 + c.toNat % 64 - 0x80)
            = c.toNat := by omega
        rw [he, Char.ofNat_toNat]

theorem utf8DecodeList_encodeChars (cs : List Char) :
    utf8DecodeList ((cs.map (fun c => utf8EncodeCharNat c.toNat)).flatten) = some cs := by
  induction cs with
  | nil => rfl
  | cons c cs ih =>
    show utf8DecodeList (utf8EncodeCharNat c.toNat
      ++ (cs.map (fun c => utf8EncodeCharNat c.toNat)).flatten) = some (c :: cs)
    rw [utf8DecodeList_encodeChar, ih, Option.map_some']

/-- Decoding is a left inverse of encoding: `Buffer.from(T, 'utf-8')` read
back with `toString('utf-8')` yields `T`. -/
theorem bufferToStringUtf8_utf8Encode (s : String) :
    bufferToStringUtf8 (utf8Encode s) = s := by
  rw [bufferToStringUtf8, utf8Encode, utf8DecodeList_encodeChars]

/-! ## Basic facts about the extraction pipeline -/

theorem serviceStage_snd (svc : TextractSvc) (call : TextractCall) :
    (serviceStage svc call).2 = [call] := by
  rw [serviceStage]
  cases svc call
  · rfl
  · simp only []
    split
    · rfl
    · rfl

theorem serviceStage_ok_empty (svc : TextractSvc) (call : TextractCall)
    (blocks : List Block) (hsvc : svc call = Except.ok blocks)
    (htrim : jsTrim (extractBlocksText blocks) = "") :
    serviceStage svc call = (Except.error ⟨"Error", noTextMsg⟩, [call]) := by
  rw [serviceStage, hsvc]
  simp only [htrim]
  rw [if_pos]
  simp

theorem serviceStage_ok_text (svc : TextractSvc) (call : TextractCall)
    (blocks : List Block) (hsvc : svc call = Except.ok blocks)
    (htrim : ¬ jsTrim (extractBlocksText blocks) = "") :
    serviceStage svc call = (Except.ok (extractBlocksText blocks), [call]) := by
  have hne : ¬ extractBlocksText blocks = "" := by
    intro h
    exact htrim (by rw [h]; rfl)
  rw [serviceStage, hsvc]
  simp only []
  rw [if_neg]
  simp only [Bool.or_eq_true, beq_iff_eq]
  exact fun h => h.elim hne htrim

theorem serviceStage_error (svc : TextractSvc) (call : TextractCall)
    (e : JsError) (hsvc : svc call = Except.error e) :
    serviceStage svc call = (Except.error (classifyTextractError e), [call]) := by
  rw [serviceStage, hsvc]

theorem ocrExtCases (ext : String)
    (hext : (ext == ".pdf" || imageExtensions.contains ext) = true) :
    ext = ".pdf" ∨ ext = ".jpg" ∨ ext = ".jpeg" ∨ ext = ".png"
      ∨ ext = ".tif" ∨ ext = ".tiff" := by
  simp [imageExtensions, List.contains] at hext
  tauto

theorem allowedExtCases (ext : String) (h : allowedExtensions.contains ext = true) :
    ext = ".pdf" ∨ ext = ".txt" ∨ ext = ".jpg" ∨ ext = ".jpeg" ∨ ext = ".png"
      ∨ ext = ".tif" ∨ ext = ".tiff" := by
  simp [allowedExtensions, List.contains] at h
  tauto

theorem extractText_txt (buf : Buffer) (sb sk : Option String) (svc : TextractSvc) :
    extractText buf ".txt" sb sk svc = (Except.ok (bufferToStringUtf8 buf), []) := by
  rw [extractText, if_pos (by decide)]

theorem extractText_pdf_badSig (buf : Buffer) (sb sk : Option String) (svc : TextractSvc)
    (hsig : pdfHeaderOk buf = false) :
    extractText buf ".pdf" sb sk svc = (Except.error ⟨"Error", invalidPdfMsg⟩, []) := by
  rw [extractText, if_neg (by decide), if_pos (by decide), if_pos (by simp [hsig])]

theorem extractText_ocr (buf : Buffer) (ext : String) (sb sk : Option String)
    (svc : TextractSvc)
    (hext : (ext == ".pdf" || imageExtensions.contains ext) = true)
    (hsig : ext = ".pdf" → pdfHeaderOk buf = true) :
    extractText buf ext sb sk svc = serviceStage svc (pickCall buf ext sb sk) := by
  rcases ocrExtCases ext hext with h | h | h | h | h | h <;> subst h
  · rw [extractText, if_neg (by decide), if_pos (by decide),
      if_neg (by simp [hsig rfl])]
  all_goals rw [extractText, if_neg (by decide), if_pos (by decide), if_neg (by simp)]

/-! ## Facts about the upload handler -/

theorem data_mk_eq (l : List Char) : (String.mk l).data = l := rfl

theorem uploadHandler_unsupported (bucketName documentId fileName : String)
    (fileBuffer : Buffer) (s3Res : Except JsError Unit) (svc : TextractSvc)
    (bed : BedrockSvc)
    (h : allowedExtensions.contains (extOf fileName) = false) :
    uploadHandler bucketName documentId fileName fileBuffer s3Res svc bed
      = (clientError "Unsupported file type", []) := by
  rw [uploadHandler.eq_def, h, if_pos (by decide)]

theorem uploadHandler_emptyBuffer (bucketName documentId fileName : String)
    (fileBuffer : Buffer) (s3Res : Except JsError Unit) (svc : TextractSvc)
    (bed : BedrockSvc)
    (hallow : allowedExtensions.contains (extOf fileName) = true)
    (hbuf : fileBuffer.length = 0) :
    uploadHandler bucketName documentId fileName fileBuffer s3Res svc bed
      = (clientError "Empty or invalid file received", []) := by
  rw [uploadHandler.eq_def, hallow, hbuf, if_neg (by decide), if_pos (by decide)]

theorem uploadHandler_extractError (bucketName documentId fileName : String)
    (fileBuffer : Buffer) (svc : TextractSvc) (bed : BedrockSvc)
    (e : JsError) (tcalls : List TextractCall)
    (hallow : allowedExtensions.contains (extOf fileName) = true)
    (hne : ¬ fileBuffer.length = 0)
    (hex : extractText fileBuffer (extOf fileName) (some bucketName)
        (some (uploadKey documentId fileName)) svc = (Except.error e, tcalls)) :
    uploadHandler bucketName documentId fileName fileBuffer (Except.ok ()) svc bed
      = (catchResponse e,
         s3PutCall bucketName documentId fileName fileBuffer
           :: tcalls.map ExternalCall.textract) := by
  rw [uploadHandler.eq_def, hallow]
  rw [if_neg (by decide), if_neg (by simpa using hne), hex]

/-! ## Claim analyses -/

/-- Claim C7: for every `txt` document whose bytes are the UTF-8 encoding of
a text `T`, `extractText` returns exactly `T` verbatim, never invokes the
extraction-service collaborator, and cannot fail. -/
theorem claim_C7 (t : String) (sb sk : Option String) (svc : TextractSvc) :
    extractText (utf8Encode t) ".txt" sb sk svc = (Except.ok t, []) := by
  rw [extractText_txt, bufferToStringUtf8_utf8Encode]

/-- Claim C3: for every validated document, the chosen extraction strategy
is a pure function of the extension and the stored-reference presence:
direct decode (no service call) iff `txt`; a single `S3Object`-reference
call iff `pdf` with both bucket and key present (never inline bytes); a
single inline-bytes call for images and for `pdf` without a reference
(never a reference). -/
theorem claim_C3 (buf : Buffer) (ext : String) (sb sk : Option String)
    (svc : TextractSvc)
    (hsupported : allowedExtensions.contains ext = true)
    (hsig : ext = ".pdf" → pdfHeaderOk buf = true) :
    (extractText buf ext sb sk svc).2
      = (if ext == ".txt" then []
         else if ext == ".pdf" && jsTruthy sb && jsTruthy sk then
           [TextractCall.s3Ref (sb.getD "") (sk.getD "")]
         else [TextractCall.inlineBytes buf])
    ∧ extractText buf ".txt" sb sk svc = (Except.ok (bufferToStringUtf8 buf), []) := by
  refine ⟨?_, extractText_txt buf sb sk svc⟩
  rcases allowedExtCases ext hsupported with h | h | h | h | h | h | h <;> subst h
  · rw [extractText_ocr _ _ _ _ _ (by decide) hsig, serviceStage_snd, pickCall]
    by_cases hb : (".pdf" == ".pdf" && jsTruthy sb && jsTruthy sk) = true
    · rw [if_pos hb, if_neg (by decide), if_pos hb]
    · rw [if_neg hb, if_neg (by decide), if_neg hb]
  · rw [extractText_txt]
    simp
  all_goals rw [extractText_ocr _ _ _ _ _ (by decide)
    (fun hh => absurd hh (by decide)), serviceStage_snd, pickCall]
  all_goals simp

/-- Witness for C3 at a concrete pdf with a stored reference: the single
call is by reference. -/
theorem claim_C3_witness :
    (extractText [37, 80, 68, 70, 45] ".pdf" (some "b") (some "k")
        (fun _ => Except.ok [])).2
      = [TextractCall.s3Ref "b" "k"] := by
  have h := (claim_C3 [37, 80, 68, 70, 45] ".pdf" (some "b") (some "k")
    (fun _ => Except.ok []) (by decide) (fun _ => by decide)).1
  simpa using h

/-- Claim C4: a byte buffer processed as `pdf` whose first five bytes are
not the `%PDF-` signature always fails with the invalid-PDF message,
regardless of size or declared name, and the handler surfaces it with
status 400. -/
theorem claim_C4 (buf : Buffer) (bucketName documentId fileName : String)
    (sb sk : Option String) (svc : TextractSvc) (bed : BedrockSvc)
    (hsig : pdfHeaderOk buf = false)
    (hname : extOf fileName = ".pdf") (hne : ¬ buf.length = 0) :
    extractText buf ".pdf" sb sk svc = (Except.error ⟨"Error", invalidPdfMsg⟩, [])
    ∧ (uploadHandler bucketName documentId fileName buf (Except.ok ()) svc bed).1
        = catchResponse ⟨"Error", invalidPdfMsg⟩
    ∧ (catchResponse ⟨"Error", invalidPdfMsg⟩).statusCode = 400 := by
  refine ⟨extractText_pdf_badSig buf sb sk svc hsig, ?_, by decide⟩
  rw [uploadHandler_extractError bucketName documentId fileName buf svc bed
    ⟨"Error", invalidPdfMsg⟩ [] (by rw [hname]; decide) hne
    (by rw [hname]; exact extractText_pdf_badSig _ _ _ _ hsig)]

/-- Witness for C4: a five-byte zero buffer named `x.pdf`. -/
theorem claim_C4_witness :
    extractText [0, 0, 0, 0, 0] ".pdf" none none (fun _ => Except.ok [])
      = (Except.error ⟨"Error", invalidPdfMsg⟩, [])
    ∧ (uploadHandler "b" "id" "x.pdf" [0, 0, 0, 0, 0] (Except.ok ())
        (fun _ => Except.ok []) (fun _ => Except.ok "s")).1
        = catchResponse ⟨"Error", invalidPdfMsg⟩
    ∧ (catchResponse ⟨"Error", invalidPdfMsg⟩).statusCode = 400 :=
  claim_C4 [0, 0, 0, 0, 0] "b" "id" "x.pdf" none none (fun _ => Except.ok [])
    (fun _ => Except.ok "s") (by decide) (by decide) (by decide)

/-- Claim C5: the candidate extracted text is exactly the `Text` of the
line-level non-empty blocks, joined by single spaces in the service's
order, and it is what a successful OCR extraction returns. -/
theorem claim_C5 (buf : Buffer) (sb sk : Option String) (svc : TextractSvc)
    (blocks : List Block)
    (hsvc : svc (TextractCall.inlineBytes buf) = Except.ok blocks)
    (htrim : ¬ jsTrim (extractBlocksText blocks) = "") :
    extractText buf ".png" sb sk svc
      = (Except.ok (jsJoin " " ((blocks.filter lineBlockFilter).map blockTextValue)),
         [TextractCall.inlineBytes buf]) := by
  rw [extractText_ocr _ _ _ _ _ (by decide) (fun hh => absurd hh (by decide))]
  have hp : pickCall buf ".png" sb sk = TextractCall.inlineBytes buf := rfl
  rw [hp, serviceStage_ok_text _ _ blocks hsvc htrim]
  rfl

/-- Witness for C5: the `scan.png` scenario blocks yield
`"Invoice Total: 42"`. -/
theorem claim_C5_witness :
    extractText [1, 2, 3] ".png" none none (fun _ => Except.ok demoBlocks)
      = (Except.ok "Invoice Total: 42", [TextractCall.inlineBytes [1, 2, 3]]) := by
  have h := claim_C5 [1, 2, 3] none none (fun _ => Except.ok demoBlocks) demoBlocks
    rfl (by decide)
  rw [h]
  rfl

/-- Claim C6: on the OCR path, a candidate text that is empty or
whitespace-only after trimming makes the extraction fail with the
no-extractable-text message instead of succeeding. -/
theorem claim_C6 (buf : Buffer) (ext : String) (sb sk : Option String)
    (svc : TextractSvc) (blocks : List Block)
    (hext : (ext == ".pdf" || imageExtensions.contains ext) = true)
    (hsig : ext = ".pdf" → pdfHeaderOk buf = true)
    (hsvc : ∀ c, svc c = Except.ok blocks)
    (htrim : jsTrim (extractBlocksText blocks) = "") :
    extractText buf ext sb sk svc
      = (Except.error ⟨"Error", noTextMsg⟩, [pickCall buf ext sb sk]) := by
  rw [extractText_ocr _ _ _ _ _ hext hsig,
    serviceStage_ok_empty _ _ blocks (hsvc _) htrim]

/-- Witness for C6: a single whitespace-only line block. -/
theorem claim_C6_witness :
    extractText [9] ".jpg" none none (fun _ => Except.ok [⟨"LINE", some " "⟩])
      = (Except.error ⟨"Error", noTextMsg⟩, [TextractCall.inlineBytes [9]]) := by
  have h := claim_C6 [9] ".jpg" none none (fun _ => Except.ok [⟨"LINE", some " "⟩])
    [⟨"LINE", some " "⟩] (by decide) (fun hh => absurd hh (by decide))
    (fun _ => rfl) (by decide)
  rw [h]
  rfl

/-- Claim C1, amended: `extractText` performs no size guard.  A `pdf` with
a valid signature submitted on the inline path (no stored reference) always
proceeds to a single inline-bytes extraction-service call, whatever its
byte length. -/
theorem claim_C1 (buf : Buffer) (svc : TextractSvc)
    (hsig : pdfHeaderOk buf = true) :
    (extractText buf ".pdf" none none svc).2 = [TextractCall.inlineBytes buf] := by
  rw [extractText_ocr _ _ _ _ _ (by decide) (fun _ => hsig), serviceStage_snd]
  rfl

/-- Counterexample to C1 as stated: an inline `pdf` buffer of exactly
10 MiB + 1 bytes does not fail with a too-large error before the service
call — the inline extraction-service call is issued, and the outcome is
the one dictated by the service's response. -/
theorem claim_C1_counterexample :
    oversizedPdfBuffer.length = 10 * 1024 * 1024 + 1
    ∧ extractText oversizedPdfBuffer ".pdf" none none (fun _ => Except.ok [])
        = (Except.error ⟨"Error", noTextMsg⟩,
           [TextractCall.inlineBytes oversizedPdfBuffer]) := by
  have hsig : pdfHeaderOk oversizedPdfBuffer = true := by
    have ht : oversizedPdfBuffer.take 5 = [37, 80, 68, 70, 45] := by
      have h5 : ([37, 80, 68, 70, 45] : List Nat).length = 5 := rfl
      rw [oversizedPdfBuffer, ← h5, List.take_left]
    rw [pdfHeaderOk, ht]
    decide
  refine ⟨?_, ?_⟩
  · rw [oversizedPdfBuffer, List.length_append, List.length_replicate]
    decide
  · rw [extractText_ocr _ _ _ _ _ (by decide) (fun _ => hsig),
      serviceStage_ok_empty _ _ [] rfl (by decide)]
    rfl

/-- Witness for C1 (amended) at a five-byte signed pdf. -/
theorem claim_C1_witness :
    pdfHeaderOk [37, 80, 68, 70, 45] = true
    ∧ (extractText [37, 80, 68, 70, 45] ".pdf" none none (fun _ => Except.ok [])).2
        = [TextractCall.inlineBytes [37, 80, 68, 70, 45]] :=
  ⟨by decide, claim_C1 [37, 80, 68, 70, 45] (fun _ => Except.ok []) (by decide)⟩

/-- Claim C2, amended: a request that fails validation (unsupported type,
empty payload, or pdf-signature pre-check) is rejected with status 400 and
no extraction-service call is ever issued for it; the unsupported-type and
empty-payload rejections additionally precede every external call (no
storage put either), but the signature rejection does not (the put is
already issued). -/
theorem claim_C2 (bucketName documentId fileName : String) (buf : Buffer)
    (svc : TextractSvc) (bed : BedrockSvc)
    (hval : allowedExtensions.contains (extOf fileName) = false ∨ buf = []
      ∨ (extOf fileName = ".pdf" ∧ pdfHeaderOk buf = false)) :
    (uploadHandler bucketName documentId fileName buf (Except.ok ()) svc bed).1.statusCode
        = 400
    ∧ List.filter isTextractCall
        (uploadHandler bucketName documentId fileName buf (Except.ok ()) svc bed).2
        = []
    ∧ (allowedExtensions.contains (extOf fileName) = false ∨ buf = [] →
        (uploadHandler bucketName documentId fileName buf (Except.ok ()) svc bed).2
          = []) := by
  rcases hval with h | h | ⟨hpdf, hsig⟩
  · rw [uploadHandler_unsupported _ _ _ _ _ _ _ h]
    exact ⟨rfl, rfl, fun _ => rfl⟩
  · subst h
    by_cases hallow : allowedExtensions.contains (extOf fileName) = true
    · rw [uploadHandler_emptyBuffer bucketName documentId fileName []
        (Except.ok ()) svc bed hallow rfl]
      exact ⟨rfl, rfl, fun _ => rfl⟩
    · rw [uploadHandler_unsupported _ _ _ _ _ _ _ (by simpa using hallow)]
      exact ⟨rfl, rfl, fun _ => rfl⟩
  · by_cases hb : buf.length = 0
    · by_cases hallow : allowedExtensions.contains (extOf fileName) = true
      · rw [uploadHandler_emptyBuffer bucketName documentId fileName buf
          (Except.ok ()) svc bed hallow hb]
        exact ⟨rfl, rfl, fun _ => rfl⟩
      · rw [uploadHandler_unsupported _ _ _ _ _ _ _ (by simpa using hallow)]
        exact ⟨rfl, rfl, fun _ => rfl⟩
    · rw [uploadHandler_extractError bucketName documentId fileName buf svc bed
        ⟨"Error", invalidPdfMsg⟩ [] (by rw [hpdf]; decide) hb
        (by rw [hpdf]; exact extractText_pdf_badSig _ _ _ _ hsig)]
      refine ⟨?_, rfl, ?_⟩
      · show (catchResponse ⟨"Error", invalidPdfMsg⟩).statusCode = 400
        decide
      · intro hdisj
        rcases hdisj with hc | hc
        · rw [hpdf] at hc
          exact absurd hc (by decide)
        · exact absurd (by rw [hc]; rfl : buf.length = 0) hb

/-- Counterexample to C2 as stated: a `.pdf` payload without the `%PDF-`
signature fails validation, yet the storage-collaborator put has already
been issued when the rejection is produced. -/
theorem claim_C2_counterexample :
    uploadHandler "bucket" "id" "doc.pdf" [0, 0, 0, 0, 0] (Except.ok ())
        (fun _ => Except.ok []) (fun _ => Except.ok "s")
      = (⟨400, some invalidPdfMsg, some invalidPdfMsg, none, none⟩,
         [ExternalCall.s3Put "bucket" "id-doc.pdf" [0, 0, 0, 0, 0]
            "application/pdf"]) := by
  rw [uploadHandler_extractError "bucket" "id" "doc.pdf" [0, 0, 0, 0, 0]
    (fun _ => Except.ok []) (fun _ => Except.ok "s")
    ⟨"Error", invalidPdfMsg⟩ [] (by decide) (by decide)
    (extractText_pdf_badSig _ _ _ _ (by decide))]
  decide

/-- Witness for C2 (amended): a concrete signature-failing pdf reaches the
400 with no extraction call, and a concrete empty-payload request makes no
external call at all. -/
theorem claim_C2_witness :
    (uploadHandler "bucket" "id" "doc.pdf" [0, 0, 0, 0, 0] (Except.ok ())
        (fun _ => Except.ok []) (fun _ => Except.ok "s")).1.statusCode = 400
    ∧ List.filter isTextractCall
        (uploadHandler "bucket" "id" "doc.pdf" [0, 0, 0, 0, 0] (Except.ok ())
          (fun _ => Except.ok []) (fun _ => Except.ok "s")).2
        = []
    ∧ (uploadHandler "bucket" "id" "doc.txt" [] (Except.ok ())
        (fun _ => Except.ok []) (fun _ => Except.ok "s")).2 = [] := by
  have h1 := claim_C2 "bucket" "id" "doc.pdf" [0, 0, 0, 0, 0]
    (fun _ => Except.ok []) (fun _ => Except.ok "s")
    (Or.inr (Or.inr ⟨by decide, by decide⟩))
  have h2 := claim_C2 "bucket" "id" "doc.txt" []
    (fun _ => Except.ok []) (fun _ => Except.ok "s") (Or.inr (Or.inl rfl))
  exact ⟨h1.1, h1.2.1, h2.2.2 (Or.inr rfl)⟩

/-- Claim C8: when the extraction service raises
`UnsupportedDocumentException`, the failure is reclassified into the
service-rejected message, which mentions encryption and
password-protection, and the handler responds with status 400. -/
theorem claim_C8 (bucketName documentId fileName : String) (buf : Buffer)
    (m : String) (svc : TextractSvc) (bed : BedrockSvc)
    (hname : extOf fileName = ".pdf") (hne : ¬ buf.length = 0)
    (hsig : pdfHeaderOk buf = true)
    (hsvc : ∀ c, svc c = Except.error ⟨"UnsupportedDocumentException", m⟩) :
    (uploadHandler bucketName documentId fileName buf (Except.ok ()) svc bed).1
      = ⟨400, some unsupportedDocMsg, some unsupportedDocMsg, none, none⟩
    ∧ jsIncludes unsupportedDocMsg "password-protected" = true
    ∧ jsIncludes unsupportedDocMsg "encrypted" = true := by
  have hex : extractText buf (extOf fileName) (some bucketName)
      (some (uploadKey documentId fileName)) svc
      = (Except.error ⟨"Error", unsupportedDocMsg⟩,
         [pickCall buf ".pdf" (some bucketName) (some (uploadKey documentId fileName))]) := by
    rw [hname, extractText_ocr _ _ _ _ _ (by decide) (fun _ => hsig),
      serviceStage_error _ _ _ (hsvc _)]
    rfl
  rw [uploadHandler_extractError bucketName documentId fileName buf svc bed
    ⟨"Error", unsupportedDocMsg⟩ _ (by rw [hname]; decide) hne hex]
  refine ⟨?_, by decide, by decide⟩
  show (catchResponse ⟨"Error", unsupportedDocMsg⟩)
      = ⟨400, some unsupportedDocMsg, some unsupportedDocMsg, none, none⟩
  decide

/-- Witness for C8: a concrete signed pdf and a service that raises
`UnsupportedDocumentException`. -/
theorem claim_C8_witness :
    (uploadHandler "b" "id" "x.pdf" [37, 80, 68, 70, 45] (Except.ok ())
        (fun _ => Except.error ⟨"UnsupportedDocumentException", "boom"⟩)
        (fun _ => Except.ok "s")).1
      = ⟨400, some unsupportedDocMsg, some unsupportedDocMsg, none, none⟩
    ∧ jsIncludes unsupportedDocMsg "password-protected" = true
    ∧ jsIncludes unsupportedDocMsg "encrypted" = true :=
  claim_C8 "b" "id" "x.pdf" [37, 80, 68, 70, 45] "boom"
    (fun _ => Except.error ⟨"UnsupportedDocumentException", "boom"⟩)
    (fun _ => Except.ok "s") (by decide) (by decide) (by decide) (fun _ => rfl)

/-- Claim C9, amended: both collaborators receive the same truncation of
the extracted text — exactly the 3000-character prefix followed by the
literal ellipsis marker `...` when the text exceeds 3000 characters, and
the full text verbatim otherwise (equivalently: it starts with the
3000-character prefix and its length accounts for exactly the three marker
characters); the Bedrock call carries the prompt built from that
truncation. -/
theorem claim_C9 (text question : String) (bed : BedrockSvc) :
    qaTruncatedText text = truncatedText text
    ∧ (jsLength text > maxTextLength →
        truncatedText text = jsSliceTo text maxTextLength ++ "...")
    ∧ (¬ jsLength text > maxTextLength → truncatedText text = text)
    ∧ jsStartsWith (truncatedText text) (jsSliceTo text maxTextLength) = true
    ∧ jsLength (truncatedText text)
        = min (jsLength text) maxTextLength
          + (if jsLength text > maxTextLength then 3 else 0)
    ∧ (generateSummary text bed).2 = [ExternalCall.bedrock (summaryInputText text)]
    ∧ (answerQuestion text question bed).2
        = [ExternalCall.bedrock (qaInputText text question)] := by
  refine ⟨rfl, ?_, ?_, ?_, ?_, ?_, ?_⟩
  · intro h
    rw [truncatedText, if_pos h]
  · intro h
    rw [truncatedText, if_neg h]
  · by_cases h : jsLength text > maxTextLength
    · rw [truncatedText, if_pos h, jsStartsWith, jsSliceTo, data_mk_eq,
        String.data_append, data_mk_eq, List.isPrefixOf_iff_prefix]
      exact List.prefix_append _ _
    · rw [truncatedText, if_neg h, jsStartsWith, jsSliceTo, data_mk_eq]
      have hle : text.data.length ≤ maxTextLength := by
        simpa [jsLength] using h
      rw [List.take_of_length_le hle, List.isPrefixOf_iff_prefix]
  · by_cases h : jsLength text > maxTextLength
    · rw [truncatedText, if_pos h, if_pos h, jsLength, String.data_append,
        jsSliceTo, data_mk_eq, List.length_append, List.length_take]
      have h3 : ("..." : String).data.length = 3 := rfl
      rw [h3]
      have h' : maxTextLength < text.data.length := by simpa [jsLength] using h
      rw [jsLength]
      omega
    · rw [truncatedText, if_neg h, if_neg h]
      have h' : ¬ maxTextLength < text.data.length := by simpa [jsLength] using h
      simp only [jsLength]
      omega
  · rw [generateSummary]
    cases hb : bed (summaryInputText text) <;> rfl
  · rw [answerQuestion]
    cases hb : bed (qaInputText text question) <;> rfl

/-- Counterexample to C9 as stated: on a 3001-character text the string
submitted to the collaborators is not the 3000-character prefix — a
three-character ellipsis is appended. -/
theorem claim_C9_counterexample :
    jsLength longText > maxTextLength
    ∧ truncatedText longText ≠ jsSliceTo longText maxTextLength
    ∧ qaTruncatedText longText ≠ jsSliceTo longText maxTextLength := by
  have hlen : jsLength longText = 3001 := by
    rw [jsLength, longText, data_mk_eq, List.length_replicate]
  have hgt : jsLength longText > maxTextLength := by
    rw [hlen]
    decide
  have hlen2 : jsLength (jsSliceTo longText maxTextLength) = 3000 := by
    rw [jsLength, jsSliceTo, data_mk_eq, List.length_take, longText, data_mk_eq,
      List.length_replicate]
    decide
  have hlen1 : jsLength (truncatedText longText) = 3003 := by
    rw [truncatedText, if_pos hgt, jsLength, String.data_append, List.length_append]
    have h2' := hlen2
    rw [jsLength] at h2'
    rw [h2']
    decide
  have hmain : ¬ truncatedText longText = jsSliceTo longText maxTextLength := by
    intro heq
    have hc := congrArg jsLength heq
    rw [hlen1, hlen2] at hc
    exact absurd hc (by decide)
  exact ⟨hgt, hmain, fun heq => hmain heq⟩

/-- Witness for C9 (amended) at the 3001-character text: the submitted
truncation is the 3000-character prefix with the literal marker appended,
identically for both collaborators. -/
theorem claim_C9_witness :
    truncatedText longText = jsSliceTo longText maxTextLength ++ "..."
    ∧ qaTruncatedText longText = truncatedText longText := by
  have h := claim_C9 longText "q" (fun _ => Except.ok "")
  refine ⟨h.2.1 ?_, h.1⟩
  rw [jsLength, longText, data_mk_eq, List.length_replicate]
  decide

/-- Claim C10: in the Q&A handler an empty-string `extractedText` or
`question` field is rejected exactly like an absent field — status 400,
identical response, and no downstream generation call. -/
theorem claim_C10 (q e : Option String) (bed : BedrockSvc) :
    (qaHandler (some "") q bed = qaHandler none q bed
      ∧ (qaHandler (some "") q bed).1.statusCode = 400
      ∧ (qaHandler (some "") q bed).2 = [])
    ∧ (qaHandler e (some "") bed = qaHandler e none bed
      ∧ (qaHandler e (some "") bed).1.statusCode = 400
      ∧ (qaHandler e (some "") bed).2 = []) := by
  constructor
  · exact ⟨rfl, rfl, rfl⟩
  · cases e with
    | none => exact ⟨rfl, rfl, rfl⟩
    | some s =>
      have hc : (!(jsTruthy (some s)) || !(jsTruthy (some ""))) = true := by
        simp [jsTruthy]
      have hc' : (!(jsTruthy (some s)) || !(jsTruthy (none : Option String))) = true := by
        simp [jsTruthy]
      rw [qaHandler, if_pos hc, qaHandler, if_pos hc']
      exact ⟨rfl, rfl, rfl⟩
